import Mathlib

/-!
Verification of the connection-bootstrap modules of the mas_migration
repository against its specification.

The repository consists of four JavaScript modules:

* src/A-migration-frontend-A/src/components/cdbConnection.jsx - the
  fail-fast database initializer: reads process.env.COUCHDB_URL, throws
  when it is falsy, otherwise constructs a PouchDB handle on the endpoint
  built from the template
  https://<couchdbUrl with one trailing slash removed>/<dbName>
  with option skip_setup: false, fires a db.info() probe whose resolution
  and rejection are both consumed by console logging, and default-exports
  the handle.
* src/unnamed/part_000 - the non-fail-fast variant: no null check; its
  PouchDB argument is the template with holes couchdbUrl) and dbName
  (the first hole carries a stray closing parenthesis in the source).
* src/unnamed/part_001 - the hard-coded-URL variant: same endpoint
  template and probe as cdbConnection.jsx, base URL a literal http:// URL.
* src/unnamed/part_002 - the axios API client with a literal baseURL,
  timeout 30000 and a Content-Type: application/json header.

The embedding below is a direct transcription of those modules: module
initialization is a pure function from the process environment (a map
from variable names to optional string values) and, for the probing
variants, from the outcome of the connectivity probe, to either an error
message (a thrown exception) or the module evaluation record listing the
handles constructed and the default export.
-/

/-- JS truthiness test on an optional environment-variable value, as used
by the check if (!couchdbUrl): an unset variable (undefined) and the empty
string are falsy, every non-empty string is truthy. -/
def jsFalsy : Option String → Bool
  | none => true
  | some s => s.isEmpty

/-- JS string interpolation of an optional environment-variable value
inside a template literal: an unset variable (undefined) interpolates as
the string "undefined", a string interpolates as itself. -/
def jsToString : Option String → String
  | none => "undefined"
  | some s => s

/-- The JS call url.replace with the regular expression matching one slash
at the end of the string and the empty replacement: removes a single
trailing slash when present, otherwise returns the string unchanged. -/
def stripTrailingSlash (s : String) : String :=
  if s.data.getLast? = some '/' then String.mk s.data.dropLast else s

/-- Parenthesis-balance scanner: the counter tracks currently open
parentheses and a closing parenthesis with no matching open one fails. -/
def parenBalancedAux : List Char → Nat → Bool
  | [], n => n == 0
  | c :: rest, n =>
    if c = '(' then parenBalancedAux rest (n + 1)
    else if c = ')' then
      match n with
      | 0 => false
      | k + 1 => parenBalancedAux rest k
    else parenBalancedAux rest n

/-- A string has balanced parentheses when every closing parenthesis
matches an earlier open one and all open ones are closed. Any JavaScript
expression that contains no string, template or regular-expression literal
holding a parenthesis must satisfy this; it is a necessary condition for a
template-literal hole to parse. -/
def parenBalanced (s : String) : Bool :=
  parenBalancedAux s.data 0

/-- The options object passed to the PouchDB constructor; all three
database modules pass the literal object with the single field
skip_setup: false. -/
structure PouchOptions where
  skip_setup : Bool
deriving Repr, DecidableEq

/-- A PouchDB client handle as constructed by new PouchDB(endpoint, opts):
it records the endpoint string and the options it was constructed with. -/
structure PouchHandle where
  endpoint : String
  options : PouchOptions
deriving Repr, DecidableEq

/-- The PouchDB constructor call new PouchDB(endpoint, opts). -/
def new_PouchDB (endpoint : String) (opts : PouchOptions) : PouchHandle :=
  { endpoint := endpoint, options := opts }

/-- The evaluation of one initializer module: the client handles it
constructed, in order, and the value it default-exports. -/
structure ModuleEval (α : Type) where
  constructed : List α
  defaultExport : α
deriving Repr, DecidableEq

/-- Outcome of the fire-and-forget connectivity probe db.info(): the
promise either resolves with an info value or rejects with an error. -/
inductive ProbeResult where
  | ok : String → ProbeResult
  | err : String → ProbeResult
deriving Repr, DecidableEq

/-- The probe continuation in cdbConnection.jsx and part_001:
db.info().then logs "DB info:" with the info value and .catch logs
"DB connection error:" with the rejection; both outcomes end in a console
message and neither rethrows. -/
def probeLog : ProbeResult → String
  | .ok info => "DB info: " ++ info
  | .err e => "DB connection error: " ++ e

/-- The fixed database name, const dbName = "transaction", identical in
cdbConnection.jsx, part_000 and part_001. -/
def dbName : String := "transaction"

/-- The endpoint template shared verbatim by cdbConnection.jsx and
part_001: https:// followed by the base URL with one trailing slash
removed, a slash, and the database name. -/
def httpsEndpoint (couchdbUrl : String) : String :=
  "https://" ++ stripTrailingSlash couchdbUrl ++ "/" ++ dbName

/-- The handle constructed by cdbConnection.jsx from a base URL:
new PouchDB on the https endpoint with skip_setup: false. -/
def cdbHandle (couchdbUrl : String) : PouchHandle :=
  new_PouchDB (httpsEndpoint couchdbUrl) { skip_setup := false }

/-- The environment variable cdbConnection.jsx reads:
process.env.COUCHDB_URL. -/
def cdbConnection.envVarName : String := "COUCHDB_URL"

/-- The message of the error cdbConnection.jsx throws when the variable is
falsy. -/
def cdbConnection.errMsg : String := "REACT_APP_COUCHDB_URL is not defined in .env"

/-- Evaluation of the module cdbConnection.jsx as a function of the
process environment and the probe outcome: read COUCHDB_URL; throw when it
is falsy; otherwise construct the single handle, run the probe whose both
continuations only log, and default-export the handle. -/
def cdbConnection.moduleEval (env : String → Option String) (p : ProbeResult) :
    Except String (ModuleEval PouchHandle × String) :=
  let couchdbUrl := env cdbConnection.envVarName
  if jsFalsy couchdbUrl then
    .error cdbConnection.errMsg
  else
    let db := cdbHandle (jsToString couchdbUrl)
    .ok ({ constructed := [db], defaultExport := db }, probeLog p)

/-- The hard-coded base URL of part_001. -/
def part001.couchdbUrl : String :=
  "http://couchdb-route-open-db.apps.itz-47ubpb.infra01-lb.dal14.techzone.ibm.com"

/-- The handle constructed by part_001: the null check is commented out,
so the handle is built unconditionally from the literal URL with the same
https endpoint template and skip_setup: false. -/
def part001.db : PouchHandle :=
  new_PouchDB (httpsEndpoint part001.couchdbUrl) { skip_setup := false }

/-- Evaluation of the module part_001 as a function of the probe outcome:
it constructs its one handle, runs the logging probe and default-exports
the handle; nothing in the module can throw. -/
def part001.moduleEval (p : ProbeResult) : ModuleEval PouchHandle × String :=
  ({ constructed := [part001.db], defaultExport := part001.db }, probeLog p)

/-- The raw source text inside the two interpolation holes of the
template-literal argument of new PouchDB in part_000. The first hole reads
couchdbUrl followed by a stray closing parenthesis, exactly as in the
source file. -/
def part000.templateHoles : List String := ["couchdbUrl)", "dbName"]

/-- Necessary parse condition for the template literal of part_000: every
interpolation hole must be parenthesis-balanced (the hole texts contain no
string or regular-expression literals, so an unbalanced parenthesis cannot
parse as a JavaScript expression). -/
def part000.templateParses : Bool :=
  part000.templateHoles.all parenBalanced

/-- Modelled from the spec: the endpoint the non-fail-fast variant
part_000 is specified to build, the base URL followed by a slash and the
database name, with no https prefix and no trailing-slash stripping; the
file itself cannot run because of the stray parenthesis in its first
template hole, so this definition follows the evident intent of the
template with that parenthesis removed, using JS interpolation of a
possibly-undefined value. -/
def part000.endpointIntent (couchdbUrl : Option String) : String :=
  jsToString couchdbUrl ++ "/" ++ dbName

/-- Modelled from the spec: the module evaluation part_000 is specified to
perform, constructing its one handle unconditionally (no null check) with
skip_setup: false and default-exporting it. -/
def part000.intentModule (env : String → Option String) : ModuleEval PouchHandle :=
  let db := new_PouchDB (part000.endpointIntent (env cdbConnection.envVarName))
    { skip_setup := false }
  { constructed := [db], defaultExport := db }

/-- Evaluation of the module part_000 as written: loading the module first
parses it, and the stray parenthesis in the first template hole makes the
file a syntax error, so the load throws before any statement runs; were
the template well formed, evaluation would proceed as in the intent
model. -/
def part000.moduleEval (env : String → Option String) :
    Except String (ModuleEval PouchHandle) :=
  if part000.templateParses then .ok (part000.intentModule env)
  else .error "SyntaxError"

/-- The headers object passed to axios.create in part_002. -/
structure AxiosHeaders where
  contentType : String
deriving Repr, DecidableEq

/-- An axios client handle as produced by axios.create: it records the
configured base URL, timeout in milliseconds, and headers. -/
structure AxiosInstance where
  baseURL : String
  timeout : Nat
  headers : AxiosHeaders
deriving Repr, DecidableEq

/-- The literal base URL configured in part_002. -/
def part002.baseURL : String :=
  "https://backend-open-db.apps.itz-47ubpb.infra01-lb.dal14.techzone.ibm.com"

/-- The handle constructed by part_002: axios.create with the literal
baseURL, timeout: 30000 and the Content-Type header application/json. -/
def part002.api : AxiosInstance :=
  { baseURL := part002.baseURL
    timeout := 30000
    headers := { contentType := "application/json" } }

/-- Evaluation of the module part_002: it constructs the single axios
handle and default-exports it; the module reads no environment and has no
probe, so evaluation is a constant. -/
def part002.moduleEval : ModuleEval AxiosInstance :=
  { constructed := [part002.api], defaultExport := part002.api }

/-- Modelled from the spec: the spec describes the database construction
option as a configuration flag indicating the target database should not
be auto-created if absent. In the client library the database is checked
for and created during setup unless skip_setup is true, so the flag
carries that meaning exactly when skip_setup is true. -/
def specNoAutoCreateFlag (o : PouchOptions) : Bool :=
  o.skip_setup

/-- An environment in which every variable is unset. -/
def emptyEnv : String → Option String := fun _ => none

/-- A one-variable environment binding COUCHDB_URL to the given value. -/
def envWith (v : String) : String → Option String :=
  fun k => if k = "COUCHDB_URL" then some v else none

/-- C1, counterexample. The claim states that for base URL
"http://example.com/" the effective endpoint is
"http://example.com/transaction"; on the code, with COUCHDB_URL set to
"http://example.com/", the fail-fast module constructs the handle with
endpoint "https://http://example.com/transaction", which differs from the
claimed string. -/
theorem c1_spec_endpoint_counterexample :
    cdbConnection.moduleEval (envWith "http://example.com/") (ProbeResult.ok "i") =
      Except.ok
        ({ constructed := [cdbHandle "http://example.com/"]
           defaultExport := cdbHandle "http://example.com/" },
          probeLog (ProbeResult.ok "i"))
    ∧ (cdbHandle "http://example.com/").endpoint = "https://http://example.com/transaction"
    ∧ (cdbHandle "http://example.com/").endpoint ≠ "http://example.com/transaction" := by
  refine ⟨rfl, by decide, by decide⟩

/-- C1, amended. For every environment binding COUCHDB_URL to a non-empty
base URL, the fail-fast module returns the handle whose endpoint is
"https://" followed by the base URL with one trailing slash removed,
followed by "/transaction". -/
theorem c1_endpoint_https_form (env : String → Option String) (p : ProbeResult)
    (url : String) (henv : env "COUCHDB_URL" = some url) (hne : url ≠ "") :
    cdbConnection.moduleEval env p =
      Except.ok
        ({ constructed := [cdbHandle url], defaultExport := cdbHandle url }, probeLog p)
    ∧ (cdbHandle url).endpoint = "https://" ++ stripTrailingSlash url ++ "/" ++ "transaction" := by
  constructor
  · unfold cdbConnection.moduleEval
    rw [show cdbConnection.envVarName = "COUCHDB_URL" from rfl, henv]
    simp [jsFalsy, jsToString, String.isEmpty_iff, hne]
  · rfl

/-- C1, witness for the amended theorem at the concrete base URL of the
claim's scenario. -/
theorem c1_endpoint_https_form_witness :
    envWith "http://example.com/" "COUCHDB_URL" = some "http://example.com/"
    ∧ "http://example.com/" ≠ ""
    ∧ ((cdbConnection.moduleEval (envWith "http://example.com/") (ProbeResult.ok "i") =
        Except.ok
          ({ constructed := [cdbHandle "http://example.com/"]
             defaultExport := cdbHandle "http://example.com/" },
            probeLog (ProbeResult.ok "i")))
      ∧ (cdbHandle "http://example.com/").endpoint =
          "https://" ++ stripTrailingSlash "http://example.com/" ++ "/" ++ "transaction") :=
  ⟨rfl, by decide,
    c1_endpoint_https_form (envWith "http://example.com/") (ProbeResult.ok "i")
      "http://example.com/" rfl (by decide)⟩

/-- C2. When COUCHDB_URL is unset or bound to the empty string, the
fail-fast module throws the configuration error and no handle is
constructed or returned. -/
theorem c2_fail_fast_on_missing (env : String → Option String) (p : ProbeResult)
    (h : env "COUCHDB_URL" = none ∨ env "COUCHDB_URL" = some "") :
    cdbConnection.moduleEval env p = Except.error cdbConnection.errMsg := by
  unfold cdbConnection.moduleEval
  rw [show cdbConnection.envVarName = "COUCHDB_URL" from rfl]
  rcases h with h | h <;> rw [h] <;> rfl

/-- C2, witness at the environment with every variable unset. -/
theorem c2_fail_fast_on_missing_witness :
    (emptyEnv "COUCHDB_URL" = none ∨ emptyEnv "COUCHDB_URL" = some "")
    ∧ cdbConnection.moduleEval emptyEnv (ProbeResult.ok "i") =
        Except.error cdbConnection.errMsg :=
  ⟨Or.inl rfl, c2_fail_fast_on_missing emptyEnv (ProbeResult.ok "i") (Or.inl rfl)⟩

/-- C3. The non-fail-fast variant part_000, as written, never returns a
handle for any environment: the stray closing parenthesis in its first
template hole is a syntax error, so loading the module throws before any
statement runs, contradicting the claim that initialization raises no
exception and returns a handle. -/
theorem c3_part000_load_error (env : String → Option String) :
    part000.moduleEval env = Except.error "SyntaxError" := by
  unfold part000.moduleEval
  rw [show part000.templateParses = false from by decide]
  rfl

/-- C4. The API client handle of part_002 is configured with timeout
30000 milliseconds, exactly the literal base URL, and the Content-Type
header application/json. -/
theorem c4_api_config :
    part002.api.timeout = 30000
    ∧ part002.api.baseURL =
        "https://backend-open-db.apps.itz-47ubpb.infra01-lb.dal14.techzone.ibm.com"
    ∧ part002.api.headers.contentType = "application/json" :=
  ⟨rfl, rfl, rfl⟩

/-- C5, counterexample. The claim states every variant passes a flag
indicating the target database should not be auto-created if absent; that
meaning corresponds to skip_setup being true, while the hard-coded variant
part_001 (as all variants) passes skip_setup: false. -/
theorem c5_no_auto_create_counterexample :
    specNoAutoCreateFlag part001.db.options = false
    ∧ part001.db.options.skip_setup = false :=
  ⟨rfl, rfl⟩

/-- C5, amended. Every variant constructs its handle with the fixed
database name "transaction" terminating the endpoint, and with skip_setup
explicitly set to false, so the setup step that auto-creates a missing
database is not skipped. -/
theorem c5_amended_dbname_and_flag :
    dbName = "transaction"
    ∧ (∀ url : String, (cdbHandle url).options.skip_setup = false
        ∧ ∃ pre : String, (cdbHandle url).endpoint = pre ++ "/" ++ dbName)
    ∧ (part001.db.options.skip_setup = false
        ∧ ∃ pre : String, part001.db.endpoint = pre ++ "/" ++ dbName)
    ∧ (∀ env : String → Option String,
        (part000.intentModule env).defaultExport.options.skip_setup = false
        ∧ ∃ pre : String,
            (part000.intentModule env).defaultExport.endpoint = pre ++ "/" ++ dbName) := by
  refine ⟨rfl, fun url => ⟨rfl, ⟨"https://" ++ stripTrailingSlash url, rfl⟩⟩,
    ⟨rfl, ⟨"https://" ++ stripTrailingSlash part001.couchdbUrl, rfl⟩⟩,
    fun env => ⟨rfl, ⟨jsToString (env cdbConnection.envVarName), rfl⟩⟩⟩

/-- C6. The probe outcome has no effect on the exported handle: the
hard-coded variant exports the same handle for any two probe outcomes and
never throws (its evaluation is total), the fail-fast variant's result
modulo the console log is the same function of the environment for any two
probe outcomes (so a probe failure neither changes the handle nor turns a
successful initialization into an exception), and the probe outcome is
observed only in the console log. -/
theorem c6_probe_no_effect :
    (∀ p q : ProbeResult, (part001.moduleEval p).1 = (part001.moduleEval q).1)
    ∧ (∀ (env : String → Option String) (p q : ProbeResult),
        Except.map Prod.fst (cdbConnection.moduleEval env p) =
          Except.map Prod.fst (cdbConnection.moduleEval env q))
    ∧ (∀ p : ProbeResult, (part001.moduleEval p).2 = probeLog p) := by
  refine ⟨fun p q => rfl, fun env p q => ?_, fun p => rfl⟩
  simp only [cdbConnection.moduleEval]
  split <;> rfl

/-- C7, counterexample. The claim quantifies over each initializer module;
the module part_000, as written, fails its parse-time check (its first
template hole is not parenthesis-balanced), so loading it throws a syntax
error and it constructs and exports no handle at all. -/
theorem c7_part000_no_handle :
    part000.templateParses = false
    ∧ part000.moduleEval emptyEnv = Except.error "SyntaxError" := by
  refine ⟨by decide, ?_⟩
  unfold part000.moduleEval
  rw [show part000.templateParses = false from by decide]
  rfl

/-- C7, amended. Each of the three well-formed initializer modules (the
fail-fast variant whenever it returns at all, the hard-coded variant, and
the API client) constructs exactly one client handle at module load and
default-exports that same handle. -/
theorem c7_singleton_export :
    (∀ (env : String → Option String) (p : ProbeResult)
        (m : ModuleEval PouchHandle) (log : String),
        cdbConnection.moduleEval env p = Except.ok (m, log) →
          m.constructed = [m.defaultExport])
    ∧ (∀ p : ProbeResult,
        (part001.moduleEval p).1.constructed = [(part001.moduleEval p).1.defaultExport])
    ∧ part002.moduleEval.constructed = [part002.moduleEval.defaultExport] := by
  refine ⟨fun env p m log h => ?_, fun p => rfl, rfl⟩
  simp only [cdbConnection.moduleEval] at h
  split at h
  · exact Except.noConfusion h
  · injection h with h1
    injection h1 with h2 h3
    rw [← h2]

/-- C7, witness for the amended theorem on the fail-fast module with a
concrete environment. -/
theorem c7_singleton_export_witness :
    cdbConnection.moduleEval (envWith "http://example.com/") (ProbeResult.ok "i") =
      Except.ok
        ({ constructed := [cdbHandle "http://example.com/"]
           defaultExport := cdbHandle "http://example.com/" },
          probeLog (ProbeResult.ok "i"))
    ∧ ({ constructed := [cdbHandle "http://example.com/"]
         defaultExport := cdbHandle "http://example.com/" } :
          ModuleEval PouchHandle).constructed =
        [({ constructed := [cdbHandle "http://example.com/"]
            defaultExport := cdbHandle "http://example.com/" } :
            ModuleEval PouchHandle).defaultExport] :=
  ⟨rfl,
    c7_singleton_export.1 (envWith "http://example.com/") (ProbeResult.ok "i")
      { constructed := [cdbHandle "http://example.com/"]
        defaultExport := cdbHandle "http://example.com/" }
      (probeLog (ProbeResult.ok "i")) rfl⟩

/-- C8. The endpoint template of the fail-fast and hard-coded variants
always begins with the literal prefix "https://" whatever the base URL,
and the hard-coded variant's http:// base URL yields the endpoint
"https://http://couchdb-route-open-db.apps.itz-47ubpb.infra01-lb.dal14.techzone.ibm.com/transaction",
which begins with "https://http://". -/
theorem c8_https_always_prepended :
    (∀ url : String, ∃ rest : String, httpsEndpoint url = "https://" ++ rest)
    ∧ part001.db.endpoint =
        "https://http://couchdb-route-open-db.apps.itz-47ubpb.infra01-lb.dal14.techzone.ibm.com/transaction"
    ∧ (∃ rest : String, part001.db.endpoint = "https://http://" ++ rest) := by
  refine ⟨fun url => ⟨stripTrailingSlash url ++ "/" ++ dbName, ?_⟩, by decide, ?_⟩
  · apply String.ext
    simp [httpsEndpoint, String.data_append, List.append_assoc]
  · exact ⟨"couchdb-route-open-db.apps.itz-47ubpb.infra01-lb.dal14.techzone.ibm.com/transaction",
      by decide⟩

/-- C9. The fail-fast module reads the environment variable COUCHDB_URL,
yet the error it throws when that variable is unset carries a message
beginning with the name REACT_APP_COUCHDB_URL of a different variable. -/
theorem c9_var_name_mismatch :
    cdbConnection.envVarName = "COUCHDB_URL"
    ∧ cdbConnection.moduleEval emptyEnv (ProbeResult.ok "i") =
        Except.error cdbConnection.errMsg
    ∧ cdbConnection.errMsg = "REACT_APP_COUCHDB_URL" ++ " is not defined in .env"
    ∧ "REACT_APP_COUCHDB_URL" ≠ cdbConnection.envVarName := by
  refine ⟨rfl, rfl, by decide, by decide⟩

/-- C10. Under the evident intent of part_000 (the stray parenthesis
removed), with COUCHDB_URL unset the undefined value interpolates as the
string "undefined" and the constructed handle's endpoint is
"undefined/transaction"; the file as written never gets that far because
its load throws a syntax error. -/
theorem c10_undefined_endpoint_intent :
    part000.endpointIntent none = "undefined/transaction"
    ∧ (part000.intentModule emptyEnv).defaultExport.endpoint = "undefined/transaction" := by
  refine ⟨by decide, by decide⟩
